import Mathlib

/-!
# Verification of the findy-agent PSM / Service-Agent callback core

A shallow embedding of the Go sources of the `findy-agent` repository:
the Service-Agent (SA) callback dispatch of `agent/cloud` (`CallEA`,
`callEA`, `callableEA`, `checkSAImpl`), the permissive SA handler
(`agent/sa`), the terminating protocol handlers of
`protocol/issuecredential` and `protocol/presentproof`, the gRPC
DIDComm server (`Run`, `Resume`, `Status`, `calcProtocolState`,
`taskFrom`), and the agent's pairwise map and worker-EA management.

Go interface values carrying messages are modelled as records with
value semantics; mutation of a message through an interface pointer
becomes a functional update that is returned.  External I/O (wallet
meta lookup, the HTTP endpoint round trip, the registered SA handler
call) is passed in as an explicit argument holding the outcome of the
call.  Errors are `Option String` / `Except String`.
-/

namespace pltype

/- Payload-type constants of the `agent/pltype` package.  Their concrete
values live outside the excerpted sources; the code only ever compares
them for equality, so they are modelled as distinct opaque tokens. -/

def CANotifyStatus : String := "ca/notify-status"
def CANotifyUserAction : String := "ca/notify-user-action"
def SAPing : String := "sa/ping"
def SAIssueCredentialAcceptPropose : String := "sa/issue-credential/accept-propose"
def SAPresentProofAcceptPropose : String := "sa/present-proof/accept-propose"
def SAPresentProofAcceptValues : String := "sa/present-proof/accept-values"
def ConnectionError : String := "connection/error"
def Terminate : String := "terminate"
def CAPairwiseCreate : String := "ca/pairwise-create"
def CACredOffer : String := "ca/cred-offer"
def CACredRequest : String := "ca/cred-request"
def CAProofRequest : String := "ca/proof-request"
def CAProofPropose : String := "ca/proof-propose"
def CATrustPing : String := "ca/trust-ping"
def CABasicMessage : String := "ca/basic-message"
def CAContinueIssueCredentialProtocol : String := "ca/continue-issue-credential"
def CAContinuePresentProofProtocol : String := "ca/continue-present-proof"

end pltype

/-- `didcomm.Msg`: the typed inner message the SA callback works on.
Only the fields the excerpted code touches are carried; `body` stands
for every remaining (opaque) field of the concrete message, so two
messages with equal `body` agree on everything the handlers never
write. -/
structure Msg where
  ready : Bool
  info : String
  subMsg : String
  body : String
deriving DecidableEq, Repr

def Msg.setReady (m : Msg) (b : Bool) : Msg := { m with ready := b }

def Msg.setInfo (m : Msg) (s : String) : Msg := { m with info := s }

def Msg.setSubMsg (m : Msg) (s : String) : Msg := { m with subMsg := s }

/-- The `callType` enumeration of `agent/cloud`: Go declares the zero
value unnamed (`was callTypeNone but not needed anymore`) followed by
`callTypeImplID` and `callTypeEndp`. -/
inductive CallType where
  | zeroVal
  | implID
  | endp
deriving DecidableEq, Repr

/-- `sa.GRPCSA`, the default SA implementation id installed by
`checkSAImpl`.  Its concrete value lives in the `agent/sa` package
outside the excerpted sources; the code only requires it to be a fixed
identifier. -/
def GRPCSA : String := "grpc_sa"

/-- The slice of `cloud.Agent` state that the SA-callback dispatch
reads and writes: the SA implementation id and the optional legacy EA
endpoint address. -/
structure AgentSA where
  saImplID : String
  eaEndp : Option String
deriving DecidableEq, Repr

/-- `Agent.checkSAImpl`: if an implementation id is set, use it;
otherwise install the gRPC SA default.  Both branches answer
`callTypeImplID`. -/
def checkSAImpl (a : AgentSA) : AgentSA × CallType :=
  if a.saImplID ≠ "" then (a, CallType.implID)
  else ({ a with saImplID := GRPCSA }, CallType.implID)

/-- `Agent.callableEA`.  When neither an impl id nor an endpoint is
configured, the wallet metadata of the pairwise DID is consulted
(external I/O, passed in as `metaStr`: `some s` is a successful
`did.Meta` read answering `s`, `none` is a read error) and a non-empty
answer other than `"pairwise"` is installed as the EA endpoint.  The
returned call type always comes from `checkSAImpl`. -/
def callableEA (a : AgentSA) (metaStr : Option String) : AgentSA × CallType :=
  let a' :=
    if a.saImplID = "" ∧ a.eaEndp = none then
      match metaStr with
      | some s => if s ≠ "pairwise" ∧ s ≠ "" then { a with eaEndp := some s } else a
      | none => a
    else a
  checkSAImpl a'

/-- An inbound payload as returned by the legacy endpoint round trip
`Tr.DIDComCallEndp`: its payload type, the inner message, and the
message's error text. -/
structure Payload where
  ptype : String
  message : Msg
  errorMsg : String
deriving DecidableEq, Repr

/-- `Agent.callEA`: the legacy HTTP endpoint call.  `endpResult` is the
outcome of the external round trip.  A reply whose payload type is
`pltype.ConnectionError` is turned into an error. -/
def callEA (endpResult : Except String Payload) : Except String Msg :=
  match endpResult with
  | .error e => .error e
  | .ok ipl =>
      if ipl.ptype = pltype.ConnectionError then
        .error ("call ea api: " ++ ipl.errorMsg)
      else .ok ipl.message

/-- `Agent.CallEA`.  The dispatch selects a branch by `callableEA`; the
branch outcomes (the registered SA implementation call and the endpoint
round trip) are external and passed in as `saImplResult` and
`endpResult`.  The deferred `err2.Handle` block turns every error into
a fail-safe NACK: the outbound message is rolled back to the inbound
one with `ready` cleared and the error itself is cleared, so the
protocol continues.  The unreachable default branch answers the inbound
message with `ready=false` and an explanatory info. -/
def CallEA (a : AgentSA) (metaStr : Option String)
    (saImplResult : Except String Msg) (endpResult : Except String Payload)
    (im : Msg) : Msg × Option String :=
  let inner : Except String Msg :=
    match (callableEA a metaStr).2 with
    | CallType.endp => callEA endpResult
    | CallType.implID => saImplResult
    | CallType.zeroVal =>
        .ok ((im.setReady false).setInfo "no SA endpoint or implementation ID set")
  match inner with
  | .error _ => (im.setReady false, none)
  | .ok om => (om, none)

/-- The gRPC `Notification_Type` values of the server's
`notificationTypeID` table (`grpcserver`), used to classify payload
types: `STATUS_UPDATE` and `ACTION_NEEDED` are notifications, the
`ANSWER_NEEDED_*` values are SA questions. -/
inductive NotificationType where
  | STATUS_UPDATE
  | ACTION_NEEDED
  | ANSWER_NEEDED_PING
  | ANSWER_NEEDED_ISSUE_PROPOSE
  | ANSWER_NEEDED_PROOF_PROPOSE
  | ANSWER_NEEDED_PROOF_VERIFY
deriving DecidableEq, Repr

/-- The `notificationTypeID` lookup table of the gRPC server. -/
def notificationTypeID (plType : String) : Option NotificationType :=
  if plType = pltype.CANotifyStatus then some .STATUS_UPDATE
  else if plType = pltype.CANotifyUserAction then some .ACTION_NEEDED
  else if plType = pltype.SAPing then some .ANSWER_NEEDED_PING
  else if plType = pltype.SAIssueCredentialAcceptPropose then some .ANSWER_NEEDED_ISSUE_PROPOSE
  else if plType = pltype.SAPresentProofAcceptPropose then some .ANSWER_NEEDED_PROOF_PROPOSE
  else if plType = pltype.SAPresentProofAcceptValues then some .ANSWER_NEEDED_PROOF_VERIFY
  else none

/-- A payload type is an SA question when the server maps it to an
`ANSWER_NEEDED_*` notification. -/
def isSAQuestion (plType : String) : Prop :=
  notificationTypeID plType = some .ANSWER_NEEDED_PING ∨
  notificationTypeID plType = some .ANSWER_NEEDED_ISSUE_PROPOSE ∨
  notificationTypeID plType = some .ANSWER_NEEDED_PROOF_PROPOSE ∨
  notificationTypeID plType = some .ANSWER_NEEDED_PROOF_VERIFY

instance (plType : String) : Decidable (isSAQuestion plType) := by
  unfold isSAQuestion; infer_instance

/-- The proof-request JSON that the permissive handler builds for a
`SAPresentProofAcceptPropose` question: `dto.ToJSON` of an
`anoncreds.ProofRequest` named `"FirstProofReq"` over the single
attribute `"email"` with a fresh `nonce`.  The exact JSON encoding is
external; what the code determines is that the sub-message is a
function of the fresh nonce alone. -/
def permissiveProofReqJSON (nonce : String) : String :=
  "\x7b\"name\":\"FirstProofReq\",\"version\":\"0.1\",\"nonce\":\"" ++ nonce ++
  "\",\"requested_attributes\":\x7b\"attr1_referent\":\x7b\"name\":\"email\"\x7d\x7d,\"requested_predicates\":\x7b\x7d\x7d"

/-- `sa.permissiveHandler` (implementation id `"permissive_sa"`).  Go's
`om` starts as the nil interface value and stays nil in the
`CANotifyStatus` case and for unmatched payload types, hence the
`Option Msg` result; `nonce` is the fresh `utils.NewNonceStr()` drawn
in the `SAPresentProofAcceptPropose` branch.  The error result is
always nil in the source, which the model keeps visible as the second
component. -/
def permissiveHandler (plType : String) (im : Msg) (nonce : String) :
    Option Msg × Option String :=
  if plType = pltype.CANotifyStatus then (none, none)
  else if plType = pltype.SAPing then
    (some ((im.setReady true).setInfo "SA ping OK"), none)
  else if plType = pltype.SAIssueCredentialAcceptPropose then
    (some (im.setReady true), none)
  else if plType = pltype.SAPresentProofAcceptPropose then
    (some ((im.setSubMsg (permissiveProofReqJSON nonce)).setReady true), none)
  else if plType = pltype.SAPresentProofAcceptValues then
    (some (im.setReady true), none)
  else (none, none)

namespace psm

/- `psm.SubState` of the `agent/psm` package, a bitfield.  The package
is outside the excerpted sources; the flags and the composites are
modelled from the spec: a bitfield over Sending, Waiting, Ready,
Failure, ACK, NACK, Archiving with `ReadyACK = Ready|ACK`,
`ReadyNACK = Ready|NACK`, and `Pure()` clearing the ACK and NACK
bits. -/

def Sending : Nat := 1
def Waiting : Nat := 2
def Ready : Nat := 4
def Failure : Nat := 8
def ACK : Nat := 16
def NACK : Nat := 32
def Archiving : Nat := 64
def ReadyACK : Nat := Ready ||| ACK
def ReadyNACK : Nat := Ready ||| NACK

/-- Modelled from the spec: `SubState.Pure()` of the `agent/psm`
package (not in the excerpted sources) projects the substate bitfield
by clearing the ACK and NACK bits, so that terminal states are exactly
those whose projection is Ready or Failure with the Archiving bit
possibly kept. -/
def Pure (ss : Nat) : Nat := Nat.ldiff ss (ACK ||| NACK)

/-- One entry of the durable PSM record: per the spec each entry
carries the substate together with timestamp, role, task and label;
only the substate is inspected by the excerpted code. -/
structure Entry where
  sub : Nat
deriving DecidableEq, Repr

/-- Modelled from the spec: a `psm.PSM` record (the `agent/psm`
package is outside the excerpted sources) as the server code reads it:
the append-only list of state entries, whose last element is the
authoritative current state, plus the "pending user action" flag
queried by `PendingUserAction()`. -/
structure PSM where
  states : List Entry
  pendingUserAction : Bool
deriving DecidableEq, Repr

/-- `PSM.LastState()`: the last entry of the record, nil when the
record has none. -/
def PSM.lastState (m : PSM) : Option Entry := m.states.getLast?

end psm

namespace pb

/-- The `ProtocolState.State` enumeration of the gRPC API
(`pb.ProtocolState_*`).  The streaming surface uses RUNNING,
WAIT_ACTION, OK, NACK and ERR; `Resume` compares against ACK. -/
inductive PState where
  | RUNNING
  | WAIT_ACTION
  | OK
  | NACK
  | ERR
  | ACK
deriving DecidableEq, Repr

end pb

/-- `calcProtocolState` of the gRPC server: `nil` record or a record
with no terminal last entry report RUNNING; a pending user action
reports WAIT_ACTION; a last entry whose `Pure()` projection is Ready
(Archiving may accompany) reports OK when the ACK bit is set, NACK
otherwise; a Failure projection reports ERR. -/
def calcProtocolState (m : Option psm.PSM) : pb.PState :=
  match m with
  | none => pb.PState.RUNNING
  | some r =>
    if r.pendingUserAction then pb.PState.WAIT_ACTION
    else
      match r.lastState with
      | none => pb.PState.RUNNING
      | some last =>
        if psm.Pure last.sub = psm.Ready ∨
           psm.Pure last.sub = (psm.Ready ||| psm.Archiving) then
          if last.sub &&& psm.ACK ≠ 0 then pb.PState.OK else pb.PState.NACK
        else if psm.Pure last.sub = psm.Failure ∨
                psm.Pure last.sub = (psm.Failure ||| psm.Archiving) then
          pb.PState.ERR
        else pb.PState.RUNNING

/-- A `prot.Transition` as the protocol handlers build it: the next
message type to send, the next message type to wait for, and the
`inOut` business-logic function producing the ACK bit and an error
from the connection id and the in/out messages. -/
structure Transition where
  sendNext : String
  waitingNext : String
  inOut : String → Msg → Msg → Bool × Option String

/-- The observable outcome of one `ExecPSM` transition: the substates
persisted (in order), the substate events emitted on the bus, whether
a new envelope was sent to the peer, and the surfaced error. -/
structure ExecResult where
  entries : List Nat
  busEvents : List Nat
  sent : Bool
  err : Option String
deriving DecidableEq, Repr

/-- Modelled from the spec: `prot.ExecPSM` (the `agent/prot` package is
outside the excerpted sources), steps 2–7 of §4.C.2.  A `Sending`
entry records receipt of the inbound message; `inOut` runs on the
constructed outbound message; an error persists and emits `Failure`;
with `sendNext = Terminate` the machine persists `ReadyACK` when `ack`
and `ReadyNACK` otherwise, emits the matching event and sends no new
envelope; with any other `sendNext` the envelope is sent and a
`Waiting` entry is persisted. -/
def ExecPSM (tr : Transition) (connID : String) (im om : Msg) : ExecResult :=
  let (ack, e) := tr.inOut connID im om
  match e with
  | some msg => ⟨[psm.Sending, psm.Failure], [psm.Failure], false, some msg⟩
  | none =>
    if tr.sendNext = pltype.Terminate then
      if ack then ⟨[psm.Sending, psm.ReadyACK], [psm.ReadyACK], false, none⟩
      else ⟨[psm.Sending, psm.ReadyNACK], [psm.ReadyNACK], false, none⟩
    else ⟨[psm.Sending, psm.Waiting], [], true, none⟩

/-- `issuecredential.handleCredentialNACK`: terminate with the inOut
function constantly answering `(false, nil)` ("return false to mark
this PSM to NACK"). -/
def handleCredentialNACK : Transition :=
  { sendNext := pltype.Terminate
    waitingNext := pltype.Terminate
    inOut := fun _ _ _ => (false, none) }

/-- `presentproof.handleProofACK`: terminate with the inOut function
constantly answering `(true, nil)`. -/
def handleProofACK : Transition :=
  { sendNext := pltype.Terminate
    waitingNext := pltype.Terminate
    inOut := fun _ _ _ => (true, none) }

/-- `presentproof.handleProofNACK`: terminate with the inOut function
constantly answering `(false, nil)`. -/
def handleProofNACK : Transition :=
  { sendNext := pltype.Terminate
    waitingNext := pltype.Terminate
    inOut := fun _ _ _ => (false, none) }

/-- One arrival inside `Run`'s select loop: either a substate from the
status listener channel (`bus.WantAll`) or a substate from the
user-action listener channel (`bus.WantUserActions`), both keyed by the
task's `(workerDID, nonce)`.  The select's nondeterministic
interleaving of the two channels is modelled as one arbitrary arrival
sequence. -/
inductive RunEvent where
  | status (sub : Nat)
  | userAction (sub : Nat)
deriving DecidableEq, Repr

/-- The select loop of the gRPC server's `Run`: a status substate
`ReadyACK` or `ACK` breaks the loop with `OK`, `ReadyNACK` or `NACK`
with `NACK`, `Failure` with `ERR`, any other status substate is
ignored; a user-action substate `Waiting` streams a `WAIT_ACTION`
protocol state and continues, any other user-action substate is
ignored.  Result: the protocol states streamed from inside the loop,
and the final status code when the loop broke (none while it is still
blocked on its channels). -/
def runLoop : List RunEvent → List pb.PState × Option pb.PState
  | [] => ([], none)
  | .status s :: rest =>
      if s = psm.ReadyACK ∨ s = psm.ACK then ([], some pb.PState.OK)
      else if s = psm.ReadyNACK ∨ s = psm.NACK then ([], some pb.PState.NACK)
      else if s = psm.Failure then ([], some pb.PState.ERR)
      else runLoop rest
  | .userAction s :: rest =>
      if s = psm.Waiting then
        let (sent, fin) := runLoop rest
        (pb.PState.WAIT_ACTION :: sent, fin)
      else runLoop rest

/-- Everything `Run` sends on the stream: the in-loop `WAIT_ACTION`
states followed by the single final state sent after the loop breaks
(nothing final while the loop is still blocked). -/
def runStream (evs : List RunEvent) : List pb.PState :=
  (runLoop evs).1 ++ (runLoop evs).2.toList

/-- The claim's reading of a status substate: which terminal code, if
any, a single bus delivery forces. -/
def statusTerminal (s : Nat) : Option pb.PState :=
  if s = psm.ReadyACK ∨ s = psm.ACK then some pb.PState.OK
  else if s = psm.ReadyNACK ∨ s = psm.NACK then some pb.PState.NACK
  else if s = psm.Failure then some pb.PState.ERR
  else none

/-- The terminal code forced by the first terminating status delivery
of an arrival sequence, if any. -/
def firstTerminal : List RunEvent → Option pb.PState
  | [] => none
  | .status s :: rest =>
      match statusTerminal s with
      | some c => some c
      | none => firstTerminal rest
  | .userAction _ :: rest => firstTerminal rest

/-- The number of `Waiting` user-action deliveries that precede the
first terminating status delivery. -/
def countWaits : List RunEvent → Nat
  | [] => 0
  | .status s :: rest =>
      if (statusTerminal s).isSome then 0 else countWaits rest
  | .userAction s :: rest =>
      (if s = psm.Waiting then 1 else 0) + countWaits rest

/-- The ACK/NACK decision the gRPC `Resume` forwards to the protocol
resumption: `state.GetState() == pb.ProtocolState_ACK`. -/
def resumeForwardedAck (st : pb.PState) : Bool :=
  match st with
  | pb.PState.ACK => true
  | _ => false

namespace pb

/-- `pb.Protocol_Type` of the old gRPC API, in the order of the
server's `protocolName` table. -/
inductive ProtocolType where
  | NONE
  | CONNECT
  | ISSUE
  | PROOF
  | TRUST_PING
  | BASIC_MESSAGE
deriving DecidableEq, Repr

/-- `pb.Protocol_Role` of the old gRPC API, as used by the server's
`typeID` lookup table. -/
inductive Role where
  | INITIATOR
  | ADDRESSEE
  | RESUME_
deriving DecidableEq, Repr

/-- `pb.CredDef.Attrs` entry: a name/value credential attribute. -/
structure CredDefAttr where
  name : String
  value : String
deriving DecidableEq, Repr

/-- The cred-def argument of an ISSUE protocol request:
`GetCredDefId`, `GetAttrs_` (nil-able attribute list) and
`GetAttributesJson`. -/
structure CredDefData where
  credDefId : String
  attrs : Option (List CredDefAttr)
  attributesJson : String
deriving DecidableEq, Repr

/-- A proof-request attribute of the RPC message: name, cred-def id
and predicate. -/
structure ProofReqAttr where
  name : String
  credDefId : String
  predicate : String
deriving DecidableEq, Repr

/-- The proof-request argument of a PROOF protocol request. -/
structure ProofReqData where
  attributesJson : String
  attrs : Option (List ProofReqAttr)
deriving DecidableEq, Repr

/-- The connection argument of a CONNECT protocol request: the
invitation JSON and the our-side label. -/
structure ConnAttr where
  invitationJson : String
  label : String
deriving DecidableEq, Repr

/-- The `pb.Protocol` RPC message, restricted to the fields `taskFrom`
reads. -/
structure Protocol where
  typeId : ProtocolType
  role : Role
  connectionId : String
  basicMessage : String
  connAttr : Option ConnAttr
  credDef : Option CredDefData
  proofReq : Option ProofReqData
deriving DecidableEq, Repr

end pb

/-- A parsed `didexchange.Invitation`; only its `ID` is read by
`taskFrom`, the rest is opaque. -/
structure Invitation where
  id : String
  rest : String
deriving DecidableEq, Repr

/-- `didcomm.CredentialAttribute`. -/
structure CredentialAttribute where
  name : String
  value : String
deriving DecidableEq, Repr

/-- `didcomm.ProofAttribute`. -/
structure ProofAttribute where
  name : String
  credDefID : String
  predicate : String
deriving DecidableEq, Repr

/-- `comm.Task`, restricted to the fields `taskFrom` writes. -/
structure CommTask where
  nonce : String
  typeID : String
  message : String
  info : String
  connectionInvitation : Option Invitation
  credDefID : Option String
  credentialAttrs : Option (List CredentialAttribute)
  proofAttrs : Option (List ProofAttribute)
deriving DecidableEq, Repr

/-- `uniqueTypeID` of the gRPC server: the `typeID` lookup table keyed
by `10*role + type`; a missing key panics in Go, here `none`. -/
def uniqueTypeID (role : pb.Role) (t : pb.ProtocolType) : Option String :=
  match role, t with
  | .INITIATOR, .CONNECT => some pltype.CAPairwiseCreate
  | .INITIATOR, .ISSUE => some pltype.CACredOffer
  | .ADDRESSEE, .ISSUE => some pltype.CACredRequest
  | .INITIATOR, .PROOF => some pltype.CAProofRequest
  | .ADDRESSEE, .PROOF => some pltype.CAProofPropose
  | .INITIATOR, .TRUST_PING => some pltype.CATrustPing
  | .INITIATOR, .BASIC_MESSAGE => some pltype.CABasicMessage
  | .RESUME_, .ISSUE => some pltype.CAContinueIssueCredentialProtocol
  | .RESUME_, .PROOF => some pltype.CAContinuePresentProofProtocol
  | _, _ => none

/-- `taskFrom` of the gRPC server.  `uuid` is the freshly generated
`utils.UUID()` the task's nonce is initialised with; the JSON decoders
(`dto.FromJSONStr`) are external and passed in.  Go panics (both the
`panic(errors.New(...))` ones recovered by `err2` and the missing
`typeID` panic of `uniqueTypeID`) are modelled as errors.  For CONNECT
the parsed invitation's ID overwrites the nonce ("Important!! we must
use same id!"). -/
def taskFrom (uuid : String)
    (parseInvitation : String → Invitation)
    (parseCredAttrs : String → List CredentialAttribute)
    (parseProofAttrs : String → List ProofAttribute)
    (protocol : pb.Protocol) : Except String CommTask :=
  match uniqueTypeID protocol.role protocol.typeId with
  | none => Except.error "cannot find typeid"
  | some tid =>
    let task : CommTask :=
      { nonce := uuid
        typeID := tid
        message := protocol.connectionId
        info := ""
        connectionInvitation := none
        credDefID := none
        credentialAttrs := none
        proofAttrs := none }
    match protocol.typeId with
    | .TRUST_PING => Except.ok task
    | .BASIC_MESSAGE => Except.ok { task with info := protocol.basicMessage }
    | .CONNECT =>
      match protocol.connAttr with
      | none => Except.error "connection attrs cannot be nil"
      | some ca =>
        let invitation := parseInvitation ca.invitationJson
        Except.ok { task with
          connectionInvitation := some invitation
          info := ca.label
          nonce := invitation.id }
    | .ISSUE =>
      if protocol.role = pb.Role.INITIATOR then
        match protocol.credDef with
        | none => Except.error "cred def cannot be nil for issuing protocol"
        | some credDef =>
          let task := { task with credDefID := some credDef.credDefId }
          match credDef.attrs with
          | some attrList =>
            let attrs : List CredentialAttribute := attrList.map fun a => ⟨a.name, a.value⟩
            Except.ok { task with credentialAttrs := some attrs }
          | none =>
            if credDef.attributesJson ≠ "" then
              let attrs := parseCredAttrs credDef.attributesJson
              Except.ok { task with credentialAttrs := some attrs }
            else Except.ok task
      else Except.ok task
    | .PROOF =>
      if protocol.role = pb.Role.INITIATOR then
        match protocol.proofReq with
        | none => Except.ok task
        | some proofReq =>
          if proofReq.attributesJson ≠ "" then
            let attrs := parseProofAttrs proofReq.attributesJson
            Except.ok { task with proofAttrs := some attrs }
          else
            match proofReq.attrs with
            | some attrList =>
              let attrs : List ProofAttribute :=
                attrList.map fun a => ⟨a.name, a.credDefId, a.predicate⟩
              Except.ok { task with proofAttrs := some attrs }
            | none => Except.ok task
      else Except.ok task
    | .NONE => Except.ok task

/-- A `sec.Pipe` as the pairwise map stores it: the two DIDs of the
secure channel, identified by their DID strings (`me.Did()`,
`you.Did()`); the cryptographic material behind them is external. -/
structure Pipe where
  inDid : String
  outDid : String
deriving DecidableEq, Repr

/-- `cloud.PipeMap` (`map[string]sec.Pipe`).  A Go map is modelled as
an association list without duplicate keys; assignment replaces the
entry for an existing key and appends otherwise, which is
observationally the Go map assignment. -/
def PipeMap : Type := List (String × Pipe)

/-- Go map assignment `m[k] = v`. -/
def PipeMap.assign (m : PipeMap) (k : String) (v : Pipe) : PipeMap :=
  match m with
  | [] => [(k, v)]
  | (k', v') :: rest =>
      if k' = k then (k, v) :: rest else (k', v') :: PipeMap.assign rest k v

/-- Go map read `m[k]` (`nil` when absent). -/
def PipeMap.read (m : PipeMap) (k : String) : Option Pipe :=
  match m with
  | [] => none
  | (k', v') :: rest => if k' = k then some v' else PipeMap.read rest k

/-- The pairwise slice of a `cloud.Agent`: the pipe map indexed by
`myDID` (`pws`) and the one indexed by label (`pwNames`).  The
`pwLock` serialises access and has no value-level content. -/
structure AgentPW where
  pws : PipeMap
  pwNames : PipeMap

/-- `Agent.AddToPWMap(me, you, name)`: build the pipe from the two
DIDs and assign it to both indices; the pipe is returned and no error
path exists. -/
def AddToPWMap (a : AgentPW) (me you : String) (name : String) : AgentPW × Pipe :=
  let pipe : Pipe := { inDid := me, outDid := you }
  ({ pws := a.pws.assign me pipe, pwNames := a.pwNames.assign name pipe }, pipe)

/-- `Agent.AddPipeToPWMap(p, name)`: assign an existing pipe to both
indices, keying the DID index by the pipe's `In` DID. -/
def AddPipeToPWMap (a : AgentPW) (p : Pipe) (name : String) : AgentPW :=
  { pws := a.pws.assign p.inDid p, pwNames := a.pwNames.assign name p }

/-- `Agent.SecPipe(meDID)`: the `myDID`-indexed lookup. -/
def SecPipe (a : AgentPW) (meDID : String) : Option Pipe :=
  a.pws.read meDID

/- `ssi.AgentType` bits.  The `agent/ssi` package is outside the
excerpted sources; `Edge` and `Worker` are modelled as distinct bits of
the type bitfield, `Edge|Worker` being the type `workerAgent` gives the
created worker. -/

def ssiEdge : Nat := 1
def ssiWorker : Nat := 2

/-- One `cloud.Agent` object as the worker-EA management sees it: the
`ssi` type bitfield, the worker-EA DID of its transport
(`Tr.PayloadPipe().Out.Did()`), and the `worker` / `ca` references,
modelled as indices into the object store. -/
structure AgentRec where
  typ : Nat
  wdid : String
  worker : Option Nat
  ca : Option Nat
deriving DecidableEq, Repr

/-- The heap of agent objects: Go pointers become indices into this
list, `none` references model nil pointers. -/
structure World where
  agents : List AgentRec
deriving DecidableEq, Repr

/-- `Agent.workerAgent(rcvrDID, suffix)`: when no worker exists yet,
check the receiver DID against the transport, allocate the worker
with type `Edge|Worker` and the back reference `ca` to this agent, and
store it in the `worker` field; wallet creation, master-secret setup
and `loadPWMap` are external I/O and out of the model.  Go panics
(DID mismatch, wallet failures) are errors here. -/
def workerAgent (w : World) (i : Nat) (rcvrDID : String) : Except String (World × Nat) :=
  match w.agents[i]? with
  | none => Except.error "no such agent"
  | some a =>
    match a.worker with
    | some wid => Except.ok (w, wid)
    | none =>
      if rcvrDID ≠ a.wdid then Except.error "Agent URL doesn't match with Transport"
      else
        let wid := w.agents.length
        let newWorker : AgentRec :=
          { typ := ssiEdge ||| ssiWorker, wdid := a.wdid, worker := none, ca := some i }
        Except.ok (⟨(w.agents.set i { a with worker := some wid }) ++ [newWorker]⟩, wid)

/-- `Agent.WEA()`: return the existing worker, else create it through
`workerAgent` with the transport's receiver DID. -/
def WEA (w : World) (i : Nat) : Except String (World × Nat) :=
  match w.agents[i]? with
  | none => Except.error "no such agent"
  | some a =>
    match a.worker with
    | some wid => Except.ok (w, wid)
    | none => workerAgent w i a.wdid

/-- `Agent.MyCA()`: panics (here `none`) when the agent is not a
worker or when its CA back reference is nil; otherwise the CA. -/
def MyCA (w : World) (i : Nat) : Option Nat :=
  match w.agents[i]? with
  | none => none
  | some a =>
      if a.typ &&& ssiWorker = 0 then none
      else a.ca

/-! ## Helper lemmas -/

theorem checkSAImpl_snd (a : AgentSA) : (checkSAImpl a).2 = CallType.implID := by
  unfold checkSAImpl
  split <;> rfl

theorem callableEA_snd (a : AgentSA) (metaStr : Option String) :
    (callableEA a metaStr).2 = CallType.implID := by
  unfold callableEA
  exact checkSAImpl_snd _

theorem isSAQuestion_cases {plType : String} (h : isSAQuestion plType) :
    plType = pltype.SAPing ∨ plType = pltype.SAIssueCredentialAcceptPropose ∨
    plType = pltype.SAPresentProofAcceptPropose ∨
    plType = pltype.SAPresentProofAcceptValues := by
  rcases h with h | h | h | h <;>
    (unfold notificationTypeID at h; split_ifs at h <;> simp_all)

theorem permissiveHandler_ping (im : Msg) (nonce : String) :
    permissiveHandler pltype.SAPing im nonce =
      (some ((im.setReady true).setInfo "SA ping OK"), none) := by
  rfl

theorem permissiveHandler_issuePropose (im : Msg) (nonce : String) :
    permissiveHandler pltype.SAIssueCredentialAcceptPropose im nonce =
      (some (im.setReady true), none) := by
  rfl

theorem permissiveHandler_proofPropose (im : Msg) (nonce : String) :
    permissiveHandler pltype.SAPresentProofAcceptPropose im nonce =
      (some ((im.setSubMsg (permissiveProofReqJSON nonce)).setReady true), none) := by
  rfl

theorem permissiveHandler_proofValues (im : Msg) (nonce : String) :
    permissiveHandler pltype.SAPresentProofAcceptValues im nonce =
      (some (im.setReady true), none) := by
  rfl

/-! ## Claims -/

/-- C1: a failure of the Service-Agent callback never aborts the
protocol.  Whichever branch `CallEA` dispatches to, if the inner call
errs — in particular when the legacy endpoint round trip answers a
payload of type `ConnectionError`, which `callEA` turns into an
error — `CallEA` answers the inbound message with its `ready` field
cleared and a nil error, so the protocol continues and the peer is
told of the rejection as a NACK; `CallEA` in fact never surfaces an
error at all. -/
theorem C1_callEA_error_resolves_to_NACK
    (a : AgentSA) (metaStr : Option String) (saImplResult : Except String Msg)
    (endpResult : Except String Payload) (im : Msg) :
    (∀ e, saImplResult = Except.error e →
      CallEA a metaStr saImplResult endpResult im = (im.setReady false, none)) ∧
    (∀ ipl, endpResult = Except.ok ipl → ipl.ptype = pltype.ConnectionError →
      callEA endpResult = Except.error ("call ea api: " ++ ipl.errorMsg)) ∧
    (∀ e, endpResult = Except.error e → callEA endpResult = Except.error e) ∧
    (CallEA a metaStr saImplResult endpResult im).2 = none := by
  refine ⟨?_, ?_, ?_, ?_⟩
  · intro e he
    simp only [CallEA, callableEA_snd, he]
  · intro ipl he hct
    simp only [callEA, he, hct, if_pos]
  · intro e he
    simp only [callEA, he]
  · simp only [CallEA, callableEA_snd]
    cases saImplResult <;> rfl

/-- Witness for C1 at concrete inputs: an erring SA implementation
call rolls the message back with `ready=false` and no error, and a
`ConnectionError` endpoint reply is an error inside `callEA`. -/
theorem C1_witness :
    CallEA ⟨"impl", none⟩ none (Except.error "boom")
        (Except.ok ⟨pltype.ConnectionError, ⟨true, "i", "s", "b"⟩, "down"⟩)
        ⟨true, "hello", "sub", "payload"⟩ =
      ((⟨true, "hello", "sub", "payload"⟩ : Msg).setReady false, none) ∧
    callEA (Except.ok ⟨pltype.ConnectionError, ⟨true, "i", "s", "b"⟩, "down"⟩) =
      Except.error ("call ea api: " ++ "down") :=
  ⟨(C1_callEA_error_resolves_to_NACK ⟨"impl", none⟩ none (Except.error "boom")
      (Except.ok ⟨pltype.ConnectionError, ⟨true, "i", "s", "b"⟩, "down"⟩)
      ⟨true, "hello", "sub", "payload"⟩).1 "boom" rfl,
   (C1_callEA_error_resolves_to_NACK ⟨"impl", none⟩ none (Except.error "boom")
      (Except.ok ⟨pltype.ConnectionError, ⟨true, "i", "s", "b"⟩, "down"⟩)
      ⟨true, "hello", "sub", "payload"⟩).2.1 _ rfl rfl⟩

/-- C2: the permissive SA handler (`"permissive_sa"`) accepts every
question: for each of the four SA question payload types it answers a
non-nil outbound built from the inbound with `ready=true` and no
error; for an `SAPing` question the outbound is exactly the inbound
with `ready=true` and `info="SA ping OK"`.  The handler is a pure
function of the message — it touches no PSM store, so no PSM entry is
created. -/
theorem C2_permissive_handler_accepts (plType : String) (im : Msg) (nonce : String)
    (h : isSAQuestion plType) :
    ((permissiveHandler plType im nonce).2 = none ∧
     ∃ om, (permissiveHandler plType im nonce).1 = some om ∧
       om.ready = true ∧ om.body = im.body) ∧
    (permissiveHandler pltype.SAPing im nonce).1 =
      some ((im.setReady true).setInfo "SA ping OK") := by
  refine ⟨?_, ?_⟩
  · rcases isSAQuestion_cases h with h' | h' | h' | h' <;> subst h'
    · exact ⟨rfl, (im.setReady true).setInfo "SA ping OK", rfl, rfl, rfl⟩
    · exact ⟨rfl, im.setReady true, rfl, rfl, rfl⟩
    · exact ⟨rfl, (im.setSubMsg (permissiveProofReqJSON nonce)).setReady true, rfl, rfl, rfl⟩
    · exact ⟨rfl, im.setReady true, rfl, rfl, rfl⟩
  · rfl

/-- Witness for C2: an `SAPing` question with `info="hello"` comes
back ready with `info="SA ping OK"`. -/
theorem C2_witness :
    isSAQuestion pltype.SAPing ∧
    ((permissiveHandler pltype.SAPing ⟨false, "hello", "", "body"⟩ "n1").2 = none ∧
     ∃ om, (permissiveHandler pltype.SAPing ⟨false, "hello", "", "body"⟩ "n1").1 = some om ∧
       om.ready = true ∧ om.body = "body") ∧
    (permissiveHandler pltype.SAPing ⟨false, "hello", "", "body"⟩ "n1").1 =
      some (((⟨false, "hello", "", "body"⟩ : Msg).setReady true).setInfo "SA ping OK") :=
  ⟨by decide,
   (C2_permissive_handler_accepts pltype.SAPing ⟨false, "hello", "", "body"⟩ "n1"
      (by decide)).1,
   (C2_permissive_handler_accepts pltype.SAPing ⟨false, "hello", "", "body"⟩ "n1"
      (by decide)).2⟩

/-- C10: `checkSAImpl` on an empty implementation id installs the gRPC
SA default and answers the impl-id call type; `callableEA` therefore
always answers `callTypeImplID`, never the zero `callType` value, so
`CallEA`'s default branch — the `ready=false` /
`"no SA endpoint or implementation ID set"` answer — is unreachable. -/
theorem C10_checkSAImpl_default (a : AgentSA) (metaStr : Option String) :
    (a.saImplID = "" →
      checkSAImpl a = ({ a with saImplID := GRPCSA }, CallType.implID)) ∧
    (callableEA a metaStr).2 = CallType.implID ∧
    (callableEA a metaStr).2 ≠ CallType.zeroVal := by
  refine ⟨?_, callableEA_snd a metaStr, ?_⟩
  · intro hempty
    unfold checkSAImpl
    rw [if_neg]
    simp [hempty]
  · rw [callableEA_snd]
    intro hcontra
    exact CallType.noConfusion hcontra

/-- Witness for C10: the empty-impl-id agent gets the gRPC default
installed and is dispatched by impl id. -/
theorem C10_witness :
    checkSAImpl ⟨"", none⟩ = (⟨GRPCSA, none⟩, CallType.implID) ∧
    (callableEA ⟨"", none⟩ none).2 = CallType.implID :=
  ⟨(C10_checkSAImpl_default ⟨"", none⟩ none).1 rfl,
   (C10_checkSAImpl_default ⟨"", none⟩ none).2.1⟩

/-- C3: the issue-credential NACK handler and the present-proof ACK
and NACK handlers all run the PSM transition with
`sendNext = Terminate`; their `inOut` functions answer `ack=true`
exactly for the proof ACK and `ack=false` for the two NACKs, so the
instance persists final substate `ReadyACK` for the ACK and
`ReadyNACK` for the NACKs, emits the matching bus event, and no new
envelope is sent. -/
theorem C3_terminate_handlers (connID : String) (im om : Msg) :
    handleCredentialNACK.sendNext = pltype.Terminate ∧
    handleProofACK.sendNext = pltype.Terminate ∧
    handleProofNACK.sendNext = pltype.Terminate ∧
    (handleProofACK.inOut connID im om).1 = true ∧
    (handleCredentialNACK.inOut connID im om).1 = false ∧
    (handleProofNACK.inOut connID im om).1 = false ∧
    ExecPSM handleProofACK connID im om =
      ⟨[psm.Sending, psm.ReadyACK], [psm.ReadyACK], false, none⟩ ∧
    ExecPSM handleCredentialNACK connID im om =
      ⟨[psm.Sending, psm.ReadyNACK], [psm.ReadyNACK], false, none⟩ ∧
    ExecPSM handleProofNACK connID im om =
      ⟨[psm.Sending, psm.ReadyNACK], [psm.ReadyNACK], false, none⟩ :=
  ⟨rfl, rfl, rfl, rfl, rfl, rfl, rfl, rfl, rfl⟩

/-- "The `Pure()` projection is Ready" in the sense of §3 of the spec:
the Archiving overlay may accompany the Ready bit. -/
def pureIsReady (s : Nat) : Prop :=
  psm.Pure s = psm.Ready ∨ psm.Pure s = (psm.Ready ||| psm.Archiving)

instance (s : Nat) : Decidable (pureIsReady s) := by
  unfold pureIsReady; infer_instance

/-- "The `Pure()` projection is Failure", Archiving overlay allowed. -/
def pureIsFailure (s : Nat) : Prop :=
  psm.Pure s = psm.Failure ∨ psm.Pure s = (psm.Failure ||| psm.Archiving)

instance (s : Nat) : Decidable (pureIsFailure s) := by
  unfold pureIsFailure; infer_instance

/-- C4's claim-side state computation, written from the claim's words:
WAIT_ACTION on a pending user action; otherwise OK when the last
entry's `Pure()` projection is Ready and the ACK bit is set; NACK when
the projection is Ready without the ACK bit; ERR when the projection
is Failure; RUNNING in every other case, including when no record
exists. -/
def claimProtocolState (m : Option psm.PSM) : pb.PState :=
  match m with
  | none => pb.PState.RUNNING
  | some r =>
    if r.pendingUserAction then pb.PState.WAIT_ACTION
    else
      match r.lastState with
      | none => pb.PState.RUNNING
      | some last =>
        if pureIsReady last.sub ∧ last.sub &&& psm.ACK ≠ 0 then pb.PState.OK
        else if pureIsReady last.sub then pb.PState.NACK
        else if pureIsFailure last.sub then pb.PState.ERR
        else pb.PState.RUNNING

/-- C4: the server's `calcProtocolState` computes exactly the state
the claim describes, for every PSM record (and for the missing
record). -/
theorem C4_calcProtocolState_as_claimed (m : Option psm.PSM) :
    calcProtocolState m = claimProtocolState m := by
  cases m with
  | none => rfl
  | some r =>
    unfold calcProtocolState claimProtocolState
    by_cases hp : r.pendingUserAction
    · simp [hp]
    · simp only [hp, if_false, Bool.false_eq_true]
      cases hl : r.lastState with
      | none => rfl
      | some last =>
        simp only [pureIsReady, pureIsFailure]
        split_ifs <;> tauto

theorem runLoop_snd (evs : List RunEvent) :
    (runLoop evs).2 = firstTerminal evs := by
  induction evs with
  | nil => rfl
  | cons e rest ih =>
    cases e with
    | status s =>
      simp only [runLoop, firstTerminal, statusTerminal]
      split_ifs <;> simp_all
    | userAction s =>
      simp only [runLoop, firstTerminal]
      split_ifs with hw
      · rcases hr : runLoop rest with ⟨sent, fin⟩
        simp_all
      · exact ih

theorem runLoop_fst (evs : List RunEvent) :
    (runLoop evs).1 = List.replicate (countWaits evs) pb.PState.WAIT_ACTION := by
  induction evs with
  | nil => rfl
  | cons e rest ih =>
    cases e with
    | status s =>
      simp only [runLoop, countWaits, statusTerminal]
      split_ifs <;> simp_all
    | userAction s =>
      simp only [runLoop, countWaits]
      split_ifs with hw
      · rcases hr : runLoop rest with ⟨sent, fin⟩
        simp_all
        rw [Nat.add_comm, List.replicate_succ]
      · simp [ih]

/-- C5: over every interleaving of the status and user-action channel
deliveries, `Run`'s select loop streams one `WAIT_ACTION` protocol
state per `Waiting` user-action delivery that precedes termination,
breaks exactly on the first status delivery of `ReadyACK`/`ACK` (final
state OK), `ReadyNACK`/`NACK` (final state NACK) or `Failure` (final
state ERR) and on no other substate, and the stream then ends with
that single final state. -/
theorem C5_run_stream_final (evs : List RunEvent) :
    (runLoop evs).2 = firstTerminal evs ∧
    (runLoop evs).1 = List.replicate (countWaits evs) pb.PState.WAIT_ACTION ∧
    runStream evs =
      List.replicate (countWaits evs) pb.PState.WAIT_ACTION ++
        (firstTerminal evs).toList := by
  refine ⟨runLoop_snd evs, runLoop_fst evs, ?_⟩
  unfold runStream
  rw [runLoop_snd evs, runLoop_fst evs]

/-- C6: the decision `Resume` forwards to the protocol resumption is
ACK exactly when the supplied `ProtocolState`'s state is `ACK`; every
other state value — NACK, but also OK, ERR, RUNNING, WAIT_ACTION — is
forwarded as NACK. -/
theorem C6_resume_ack_iff (st : pb.PState) :
    (resumeForwardedAck st = true ↔ st = pb.PState.ACK) ∧
    (st ≠ pb.PState.ACK → resumeForwardedAck st = false) := by
  cases st <;> simp [resumeForwardedAck]

/-- Witness for C6: `OK` — a state that is neither ACK nor NACK — is
forwarded as NACK, and `ACK` as ACK. -/
theorem C6_witness :
    resumeForwardedAck pb.PState.OK = false ∧
    resumeForwardedAck pb.PState.ACK = true :=
  ⟨(C6_resume_ack_iff pb.PState.OK).2 (by decide),
   (C6_resume_ack_iff pb.PState.ACK).1.mpr rfl⟩

/-- C7: for a Connect protocol task built from an RPC `Protocol`
message, `taskFrom` overwrites the freshly generated UUID nonce with
the parsed invitation's ID, so the protocol thread-id of the instance
is the id chosen by the initiating peer. -/
theorem C7_connect_nonce_is_invitation_id (uuid : String)
    (parseInvitation : String → Invitation)
    (parseCredAttrs : String → List CredentialAttribute)
    (parseProofAttrs : String → List ProofAttribute)
    (protocol : pb.Protocol) (ca : pb.ConnAttr)
    (hT : protocol.typeId = pb.ProtocolType.CONNECT)
    (hR : protocol.role = pb.Role.INITIATOR)
    (hC : protocol.connAttr = some ca) :
    ∃ t, taskFrom uuid parseInvitation parseCredAttrs parseProofAttrs protocol =
        Except.ok t ∧
      t.nonce = (parseInvitation ca.invitationJson).id ∧
      t.connectionInvitation = some (parseInvitation ca.invitationJson) ∧
      t.info = ca.label := by
  obtain ⟨tid, role, connId, bm, cAttr, cd, pr⟩ := protocol
  simp only at hT hR hC
  subst hT; subst hR; subst hC
  exact ⟨_, rfl, rfl, rfl, rfl⟩

/-- Witness for C7: invitation id `"inv-42"` replaces the generated
UUID `"uuid-1"` as the task nonce. -/
theorem C7_witness :
    ∃ t, taskFrom "uuid-1" (fun _ => ⟨"inv-42", "rest"⟩) (fun _ => []) (fun _ => [])
        ⟨pb.ProtocolType.CONNECT, pb.Role.INITIATOR, "conn", "",
          some ⟨"ij", "label"⟩, none, none⟩ = Except.ok t ∧
      t.nonce = ((fun _ : String => (⟨"inv-42", "rest"⟩ : Invitation)) "ij").id ∧
      t.connectionInvitation =
        some ((fun _ : String => (⟨"inv-42", "rest"⟩ : Invitation)) "ij") ∧
      t.info = "label" :=
  C7_connect_nonce_is_invitation_id "uuid-1" (fun _ => ⟨"inv-42", "rest"⟩)
    (fun _ => []) (fun _ => [])
    ⟨pb.ProtocolType.CONNECT, pb.Role.INITIATOR, "conn", "", some ⟨"ij", "label"⟩,
      none, none⟩ ⟨"ij", "label"⟩ rfl rfl rfl

theorem PipeMap.read_assign (m : PipeMap) (k : String) (v : Pipe) :
    (m.assign k v).read k = some v := by
  induction m with
  | nil => simp [PipeMap.assign, PipeMap.read]
  | cons kv rest ih =>
    obtain ⟨k', v'⟩ := kv
    by_cases h : k' = k <;> simp [PipeMap.assign, PipeMap.read, h, ih]

theorem PipeMap.assign_assign_same (m : PipeMap) (k : String) (v : Pipe) :
    (m.assign k v).assign k v = m.assign k v := by
  induction m with
  | nil => simp [PipeMap.assign]
  | cons kv rest ih =>
    obtain ⟨k', v'⟩ := kv
    by_cases h : k' = k <;> simp [PipeMap.assign, h, ih]

/-- C8 counterexample: `AddToPWMap` called a second time for the same
`myDID` with a conflicting label is NOT an error — the function has no
error result at all; the call completes, indexes the pipe under the
new label as well, and keeps the old label entry. -/
theorem C8_conflicting_label_not_an_error :
    (AddToPWMap (AddToPWMap ⟨[], []⟩ "did:me" "did:you" "L1").1
        "did:me" "did:you" "L2").1.pwNames.read "L2" =
      some ⟨"did:me", "did:you"⟩ ∧
    (AddToPWMap (AddToPWMap ⟨[], []⟩ "did:me" "did:you" "L1").1
        "did:me" "did:you" "L2").1.pwNames.read "L1" =
      some ⟨"did:me", "did:you"⟩ ∧
    (AddToPWMap (AddToPWMap ⟨[], []⟩ "did:me" "did:you" "L1").1
        "did:me" "did:you" "L2").1.pws.read "did:me" =
      some ⟨"did:me", "did:you"⟩ ∧
    (AddToPWMap (AddToPWMap ⟨[], []⟩ "did:me" "did:you" "L1").1
        "did:me" "did:you" "L2").2 = ⟨"did:me", "did:you"⟩ := by
  refine ⟨?_, ?_, ?_, ?_⟩ <;> rfl

/-- C8 (amended): calling `AddToPWMap` twice with the same triple is a
no-op — the second call leaves the maps unchanged; after every call
the pairwise is indexed under both keys, the `myDID` index and the
label index holding the same pipe, which is also the returned pipe.  A
conflicting label for the same `myDID` is not rejected: the call
succeeds and adds a second label entry for the same pipe (see the
counterexample above). -/
theorem C8_AddToPWMap_idempotent_and_indexed (a : AgentPW) (me you name : String) :
    ((AddToPWMap (AddToPWMap a me you name).1 me you name).1.pws =
        (AddToPWMap a me you name).1.pws ∧
      (AddToPWMap (AddToPWMap a me you name).1 me you name).1.pwNames =
        (AddToPWMap a me you name).1.pwNames) ∧
    (AddToPWMap a me you name).1.pws.read me = some ⟨me, you⟩ ∧
    (AddToPWMap a me you name).1.pwNames.read name = some ⟨me, you⟩ ∧
    (AddToPWMap a me you name).2 = ⟨me, you⟩ := by
  refine ⟨⟨?_, ?_⟩, ?_, ?_, rfl⟩
  · simp [AddToPWMap, PipeMap.assign_assign_same]
  · simp [AddToPWMap, PipeMap.assign_assign_same]
  · simp [AddToPWMap, PipeMap.read_assign]
  · simp [AddToPWMap, PipeMap.read_assign]

/-- C9: `WEA()` creates the worker EA at most once — the world after
the creating call is a fixed point of every later call, which returns
the same worker — the created worker holds its CA as a back reference
so `MyCA()` on it answers that CA, and `MyCA` panics (`none`) for a
non-worker agent and for a worker with a nil CA reference. -/
theorem C9_worker_idempotent_backref (w : World) (i : Nat) (a : AgentRec)
    (hget : w.agents[i]? = some a) (hnow : a.worker = none) :
    ∃ w1 wid, WEA w i = Except.ok (w1, wid) ∧
      WEA w1 i = Except.ok (w1, wid) ∧
      MyCA w1 wid = some i ∧
      w1.agents.length = w.agents.length + 1 ∧
      (∀ j b, w.agents[j]? = some b → b.typ &&& ssiWorker = 0 → MyCA w j = none) ∧
      (∀ j b, w.agents[j]? = some b → b.ca = none → MyCA w j = none) := by
  have hi : i < w.agents.length := by
    by_contra hcon
    rw [List.getElem?_eq_none (Nat.le_of_not_lt hcon)] at hget
    exact Option.noConfusion hget
  set wid := w.agents.length with hwid
  set newWorker : AgentRec :=
    { typ := ssiEdge ||| ssiWorker, wdid := a.wdid, worker := none, ca := some i }
    with hnw
  set w1 : World :=
    ⟨(w.agents.set i { a with worker := some wid }) ++ [newWorker]⟩ with hw1
  have hget1 : w1.agents[i]? = some { a with worker := some wid } := by
    rw [hw1]
    have hi' : i < (w.agents.set i { a with worker := some wid }).length := by
      rw [List.length_set]; exact hi
    rw [List.getElem?_append_left hi']
    exact List.getElem?_set_self hi
  have hgetw : w1.agents[wid]? = some newWorker := by
    rw [hw1]
    have hlen : (w.agents.set i { a with worker := some wid }).length ≤ wid := by
      rw [List.length_set]
    rw [List.getElem?_append_right hlen]
    simp [List.length_set]
  refine ⟨w1, wid, ?_, ?_, ?_, ?_, ?_, ?_⟩
  · simp [WEA, workerAgent, hget, hnow]
  · simp [WEA, hget1]
  · simp [MyCA, hgetw, hnw, ssiEdge, ssiWorker]
  · simp [hw1, List.length_set]
  · intro j b hjb htyp
    simp [MyCA, hjb, htyp]
  · intro j b hjb hca
    simp [MyCA, hjb, hca]

/-- Witness for C9 on a one-agent world: the worker is created once,
the second `WEA` call returns it unchanged, and its `MyCA` is the CA. -/
theorem C9_witness :
    ∃ w1 wid,
      WEA ⟨[⟨ssiEdge, "wdid-1", none, none⟩]⟩ 0 = Except.ok (w1, wid) ∧
      WEA w1 0 = Except.ok (w1, wid) ∧
      MyCA w1 wid = some 0 ∧
      w1.agents.length =
        (⟨[⟨ssiEdge, "wdid-1", none, none⟩]⟩ : World).agents.length + 1 ∧
      (∀ j b, (⟨[⟨ssiEdge, "wdid-1", none, none⟩]⟩ : World).agents[j]? = some b →
        b.typ &&& ssiWorker = 0 → MyCA ⟨[⟨ssiEdge, "wdid-1", none, none⟩]⟩ j = none) ∧
      (∀ j b, (⟨[⟨ssiEdge, "wdid-1", none, none⟩]⟩ : World).agents[j]? = some b →
        b.ca = none → MyCA ⟨[⟨ssiEdge, "wdid-1", none, none⟩]⟩ j = none) :=
  C9_worker_idempotent_backref ⟨[⟨ssiEdge, "wdid-1", none, none⟩]⟩ 0
    ⟨ssiEdge, "wdid-1", none, none⟩ rfl rfl
